import Mathlib

/-!
Shallow embedding of the wlib shared/weak pointer subsystem (SharedPtr.h):
reference-count control blocks with uint16 strong and weak counts, the
SharedCount and WeakCount handles, and the shared_ptr and weak_ptr facades,
modelled over an explicit heap of control blocks together with an event
trace recording count mutations, pointee disposal and block destruction.
-/

namespace Wlp

/-- Modulus of the uint16_t arithmetic used by ptr_use_count. -/
def U16 : Nat := 65536

/-- Addition of uint16 values, wrapping modulo 2^16. -/
def u16add (a b : Nat) : Nat := (a + b) % U16

/-- Subtraction of uint16 values, wrapping modulo 2^16. -/
def u16sub (a b : Nat) : Nat := (a + (U16 - b % U16)) % U16

/-- Source function exchange_and_add: returns the old value of mem and the new
stored value old + val with uint16 wraparound. -/
def exchange_and_add (mem val : Nat) : Nat × Nat := (mem, u16add mem val)

/-- Source function exchange_and_sub: returns the old value of mem and the new
stored value old - val with uint16 wraparound. -/
def exchange_and_sub (mem val : Nat) : Nat × Nat := (mem, u16sub mem val)

/-- The count fields of a ReferenceCount control block. The managed raw pointer
itself is tracked at the heap level (Block), not here. -/
structure ReferenceCount where
  m_use_count : Nat
  m_weak_count : Nat
deriving DecidableEq

/-- Constructor ReferenceCount(pointer ptr): use count and weak count both 1. -/
def ReferenceCount.init : ReferenceCount := ⟨1, 1⟩

/-- Source add_copied_reference: increment the use count. -/
def ReferenceCount.add_copied_reference (rc : ReferenceCount) : ReferenceCount :=
  { rc with m_use_count := u16add rc.m_use_count 1 }

/-- Source add_locked_reference: exchange-and-add 1 to the use count; if the
pre-increment value was 0 the count is forced back to 0. -/
def ReferenceCount.add_locked_reference (rc : ReferenceCount) : ReferenceCount :=
  let r := exchange_and_add rc.m_use_count 1
  if r.1 = 0 then { rc with m_use_count := 0 }
  else { rc with m_use_count := r.2 }

/-- Source add_weak_reference: increment the weak count. -/
def ReferenceCount.add_weak_reference (rc : ReferenceCount) : ReferenceCount :=
  { rc with m_weak_count := u16add rc.m_weak_count 1 }

/-- Result of ReferenceCount::release: the new counts, whether dispose() of the
pointee fired, and whether destroy() of the block itself fired. -/
structure ReleaseResult where
  rc : ReferenceCount
  disposed : Bool
  destroyed : Bool
deriving DecidableEq

/-- Source release: exchange-and-sub 1 from the use count; if the old value was
1, dispose the pointee and exchange-and-sub 1 from the weak count; if that old
value was 1, destroy the block. -/
def ReferenceCount.release (rc : ReferenceCount) : ReleaseResult :=
  let r := exchange_and_sub rc.m_use_count 1
  if r.1 = 1 then
    let rw := exchange_and_sub rc.m_weak_count 1
    if rw.1 = 1 then ⟨⟨r.2, rw.2⟩, true, true⟩
    else ⟨⟨r.2, rw.2⟩, true, false⟩
  else ⟨⟨r.2, rc.m_weak_count⟩, false, false⟩

/-- Source weak_release: exchange-and-sub 1 from the weak count; the boolean
reports whether the old value was 1, in which case the block is destroyed. -/
def ReferenceCount.weak_release (rc : ReferenceCount) : ReferenceCount × Bool :=
  let r := exchange_and_sub rc.m_weak_count 1
  ({ rc with m_weak_count := r.2 }, r.1 = 1)

/-- Source use_count accessor. -/
def ReferenceCount.use_count (rc : ReferenceCount) : Nat := rc.m_use_count

/-- Source weak_count accessor. -/
def ReferenceCount.weak_count (rc : ReferenceCount) : Nat := rc.m_weak_count

/-- Heap addresses of control blocks. -/
abbrev Addr := Nat

/-- A live control block on the heap: its counts plus whether the managed
pointee has not yet been disposed. -/
structure Block where
  rc : ReferenceCount
  pointeeAlive : Bool
deriving DecidableEq

/-- The heap of control blocks: slot a holds some block while the block at
address a is live, and none once it has been destroyed. -/
structure Heap where
  blocks : List (Option Block)
deriving DecidableEq

/-- Read the control block at address a; none when the address is unallocated
or the block has been destroyed. -/
def Heap.get (h : Heap) (a : Addr) : Option Block :=
  (h.blocks[a]?).getD none

/-- Overwrite the slot at address a. -/
def Heap.set (h : Heap) (a : Addr) (b : Option Block) : Heap :=
  ⟨h.blocks.set a b⟩

/-- Allocate a fresh control block with counts (1, 1) and a live pointee,
returning its address. -/
def Heap.alloc (h : Heap) : Addr × Heap :=
  (h.blocks.length, ⟨h.blocks ++ [some ⟨ReferenceCount.init, true⟩]⟩)

/-- Observable events of a run: count mutations record the block address, and
decrements additionally record the pre-decrement value of the counter. -/
inductive Event where
  | incStrong (a : Addr)
  | decStrong (a : Addr) (old : Nat)
  | incWeak (a : Addr)
  | decWeak (a : Addr) (old : Nat)
  | dispose (a : Addr)
  | destroyBlock (a : Addr)
  | readCachePtr (p : Nat)
deriving DecidableEq

/-- Whether an event is a weak-count mutation. -/
def Event.isWeakMutation : Event → Bool
  | .incWeak _ => true
  | .decWeak _ _ => true
  | _ => false

/-- Call add_copied_reference on the block at address a; none models the
undefined behaviour of touching a destroyed or unallocated block. -/
def Heap.addCopied (h : Heap) (a : Addr) : Option (Heap × List Event) :=
  (h.get a).map fun b =>
    (h.set a (some { b with rc := b.rc.add_copied_reference }), [.incStrong a])

/-- Call add_locked_reference on the block at address a. -/
def Heap.addLocked (h : Heap) (a : Addr) : Option (Heap × List Event) :=
  (h.get a).map fun b =>
    (h.set a (some { b with rc := b.rc.add_locked_reference }), [.incStrong a])

/-- Call add_weak_reference on the block at address a. -/
def Heap.addWeak (h : Heap) (a : Addr) : Option (Heap × List Event) :=
  (h.get a).map fun b =>
    (h.set a (some { b with rc := b.rc.add_weak_reference }), [.incWeak a])

/-- Call release on the block at address a: dispose marks the pointee dead,
destroy clears the slot. -/
def Heap.releaseStrong (h : Heap) (a : Addr) : Option (Heap × List Event) :=
  (h.get a).map fun b =>
    let r := b.rc.release
    if r.destroyed then
      (h.set a none,
       [.decStrong a b.rc.m_use_count, .dispose a,
        .decWeak a b.rc.m_weak_count, .destroyBlock a])
    else if r.disposed then
      (h.set a (some { rc := r.rc, pointeeAlive := false }),
       [.decStrong a b.rc.m_use_count, .dispose a,
        .decWeak a b.rc.m_weak_count])
    else
      (h.set a (some { b with rc := r.rc }), [.decStrong a b.rc.m_use_count])

/-- Call weak_release on the block at address a. -/
def Heap.releaseWeak (h : Heap) (a : Addr) : Option (Heap × List Event) :=
  (h.get a).map fun b =>
    let r := b.rc.weak_release
    if r.2 then (h.set a none, [.decWeak a b.rc.m_weak_count, .destroyBlock a])
    else (h.set a (some { b with rc := r.1 }), [.decWeak a b.rc.m_weak_count])

/-- The SharedCount strong handle: a nullable reference to a control block. -/
structure SharedCount where
  m_pi : Option Addr
deriving DecidableEq

/-- The WeakCount weak handle: a nullable reference to a control block. -/
structure WeakCount where
  m_pi : Option Addr
deriving DecidableEq

/-- Default SharedCount constructor: null reference. -/
def SharedCount.null : SharedCount := ⟨none⟩

/-- Constructor SharedCount(PtrType ptr): create a fresh ReferenceCount. -/
def SharedCount.ofPtr (h : Heap) : SharedCount × Heap :=
  let r := h.alloc
  (⟨some r.1⟩, r.2)

/-- SharedCount copy constructor: add_copied_reference when non-null. -/
def SharedCount.copy (sc : SharedCount) (h : Heap) :
    Option (SharedCount × Heap × List Event) :=
  match sc.m_pi with
  | none => some (⟨none⟩, h, [])
  | some a => (h.addCopied a).map fun r => (⟨some a⟩, r.1, r.2)

/-- SharedCount destructor: release when non-null. -/
def SharedCount.destruct (sc : SharedCount) (h : Heap) :
    Option (Heap × List Event) :=
  match sc.m_pi with
  | none => some (h, [])
  | some a => h.releaseStrong a

/-- SharedCount copy assignment: when the two references differ, add a copied
reference to the new block, then release the old one, then adopt. -/
def SharedCount.assign (dst src : SharedCount) (h : Heap) :
    Option (SharedCount × Heap × List Event) :=
  if src.m_pi = dst.m_pi then some (dst, h, [])
  else do
    let r1 ← match src.m_pi with
      | none => some (h, ([] : List Event))
      | some a => h.addCopied a
    let r2 ← match dst.m_pi with
      | none => some (r1.1, ([] : List Event))
      | some a => r1.1.releaseStrong a
    some (⟨src.m_pi⟩, r2.1, r1.2 ++ r2.2)

/-- Constructor SharedCount(const WeakCount &): copies the reference and calls
add_locked_reference unconditionally; on a null weak handle this dereferences
a null pointer, modelled as none. -/
def SharedCount.ofWeak (wc : WeakCount) (h : Heap) :
    Option (SharedCount × Heap × List Event) :=
  match wc.m_pi with
  | none => none
  | some a => (h.addLocked a).map fun r => (⟨some a⟩, r.1, r.2)

/-- SharedCount::use_count: the block's use count, or 0 when null. Reading a
destroyed block is undefined, modelled as none. -/
def SharedCount.use_count (sc : SharedCount) (h : Heap) : Option Nat :=
  match sc.m_pi with
  | none => some 0
  | some a => (h.get a).map fun b => b.rc.m_use_count

/-- Default WeakCount constructor: null reference. -/
def WeakCount.null : WeakCount := ⟨none⟩

/-- Constructor WeakCount(const SharedCount &): add_weak_reference when
non-null. -/
def WeakCount.ofShared (sc : SharedCount) (h : Heap) :
    Option (WeakCount × Heap × List Event) :=
  match sc.m_pi with
  | none => some (⟨none⟩, h, [])
  | some a => (h.addWeak a).map fun r => (⟨some a⟩, r.1, r.2)

/-- WeakCount copy constructor: add_weak_reference when non-null. -/
def WeakCount.copy (wc : WeakCount) (h : Heap) :
    Option (WeakCount × Heap × List Event) :=
  match wc.m_pi with
  | none => some (⟨none⟩, h, [])
  | some a => (h.addWeak a).map fun r => (⟨some a⟩, r.1, r.2)

/-- WeakCount destructor: weak_release when non-null. -/
def WeakCount.destruct (wc : WeakCount) (h : Heap) :
    Option (Heap × List Event) :=
  match wc.m_pi with
  | none => some (h, [])
  | some a => h.releaseWeak a

/-- WeakCount assignment from a WeakCount: add the new weak reference first,
then release the old one, then adopt; no identity check. -/
def WeakCount.assign (dst src : WeakCount) (h : Heap) :
    Option (WeakCount × Heap × List Event) := do
  let r1 ← match src.m_pi with
    | none => some (h, ([] : List Event))
    | some a => h.addWeak a
  let r2 ← match dst.m_pi with
    | none => some (r1.1, ([] : List Event))
    | some a => r1.1.releaseWeak a
  some (⟨src.m_pi⟩, r2.1, r1.2 ++ r2.2)

/-- WeakCount assignment from a SharedCount: add the new weak reference first,
then release the old one, then adopt. -/
def WeakCount.assignFromShared (dst : WeakCount) (src : SharedCount) (h : Heap) :
    Option (WeakCount × Heap × List Event) := do
  let r1 ← match src.m_pi with
    | none => some (h, ([] : List Event))
    | some a => h.addWeak a
  let r2 ← match dst.m_pi with
    | none => some (r1.1, ([] : List Event))
    | some a => r1.1.releaseWeak a
  some (⟨src.m_pi⟩, r2.1, r1.2 ++ r2.2)

/-- WeakCount::use_count: dereferences m_pi with no null check (source line
422); on a null handle this is a null dereference, modelled as none. -/
def WeakCount.use_count (wc : WeakCount) (h : Heap) : Option Nat :=
  match wc.m_pi with
  | none => none
  | some a => (h.get a).map fun b => b.rc.m_use_count

/-- The shared_ptr facade: a strong handle plus the cached observer address
(0 encodes a null raw pointer). -/
structure shared_ptr where
  m_refcount : SharedCount
  m_ptr : Nat
deriving DecidableEq

/-- The weak_ptr facade: a weak handle plus the cached observer address
(0 encodes a null raw pointer). -/
structure weak_ptr where
  m_refcount : WeakCount
  m_ptr : Nat
deriving DecidableEq

/-- Default shared_ptr constructor: null handle and null observer. -/
def shared_ptr.null : shared_ptr := ⟨⟨none⟩, 0⟩

/-- Explicit constructor shared_ptr(U *ptr): new control block over the raw
address p, which is also cached as the observer. -/
def shared_ptr.ofRaw (p : Nat) (h : Heap) : shared_ptr × Heap :=
  let r := SharedCount.ofPtr h
  (⟨r.1, p⟩, r.2)

/-- Aliasing constructor shared_ptr(const shared_ptr &sp, T *ptr): share the
source's handle, expose the given observer address. -/
def shared_ptr.alias (sp : shared_ptr) (p : Nat) (h : Heap) :
    Option (shared_ptr × Heap × List Event) :=
  (sp.m_refcount.copy h).map fun r => (⟨r.1, p⟩, r.2)

/-- shared_ptr copy constructor. -/
def shared_ptr.copy (sp : shared_ptr) (h : Heap) :
    Option (shared_ptr × Heap × List Event) :=
  (sp.m_refcount.copy h).map fun r => (⟨r.1, sp.m_ptr⟩, r.2)

/-- shared_ptr destructor: the strong handle's destructor. -/
def shared_ptr.destruct (sp : shared_ptr) (h : Heap) :
    Option (Heap × List Event) :=
  sp.m_refcount.destruct h

/-- shared_ptr copy assignment: caches the source observer address, then
assigns the strong handle. -/
def shared_ptr.assign (dst src : shared_ptr) (h : Heap) :
    Option (shared_ptr × Heap × List Event) :=
  (SharedCount.assign dst.m_refcount src.m_refcount h).map fun r =>
    (⟨r.1, src.m_ptr⟩, r.2.1, .readCachePtr src.m_ptr :: r.2.2)

/-- Source get(): the cached observer address. -/
def shared_ptr.get (sp : shared_ptr) : Nat := sp.m_ptr

/-- Source operator bool: true iff the observer address is non-null. -/
def shared_ptr.toBool (sp : shared_ptr) : Bool := sp.m_ptr ≠ 0

/-- shared_ptr::use_count: delegates to the strong handle. -/
def shared_ptr.use_count (sp : shared_ptr) (h : Heap) : Option Nat :=
  sp.m_refcount.use_count h

/-- Constructor weak_ptr(const shared_ptr &sp): weak handle from the strong
handle, observer address copied from the source. -/
def weak_ptr.ofShared (sp : shared_ptr) (h : Heap) :
    Option (weak_ptr × Heap × List Event) :=
  (WeakCount.ofShared sp.m_refcount h).map fun r => (⟨r.1, sp.m_ptr⟩, r.2)

/-- weak_ptr destructor: the weak handle's destructor. -/
def weak_ptr.destruct (wp : weak_ptr) (h : Heap) :
    Option (Heap × List Event) :=
  wp.m_refcount.destruct h

/-- weak_ptr::use_count: delegates to WeakCount::use_count with no null
check anywhere on the path. -/
def weak_ptr.use_count (wp : weak_ptr) (h : Heap) : Option Nat :=
  wp.m_refcount.use_count h

/-- weak_ptr::expired: use count observed as 0; inherits the unchecked
dereference of WeakCount::use_count. -/
def weak_ptr.expired (wp : weak_ptr) (h : Heap) : Option Bool :=
  (wp.m_refcount.use_count h).map fun n => n = 0

/-- Explicit constructor shared_ptr(const weak_ptr &wp): locks the weak
handle via SharedCount(WeakCount) with no expiry guard, and copies the
weak pointer's cached observer address. -/
def shared_ptr.ofWeak (wp : weak_ptr) (h : Heap) :
    Option (shared_ptr × Heap × List Event) :=
  (SharedCount.ofWeak wp.m_refcount h).map fun r => (⟨r.1, wp.m_ptr⟩, r.2)

/-- weak_ptr::lock: empty shared pointer when expired, otherwise the
explicit shared_ptr(weak_ptr) constructor. -/
def weak_ptr.lock (wp : weak_ptr) (h : Heap) :
    Option (shared_ptr × Heap × List Event) := do
  let e ← wp.expired h
  if e then some (shared_ptr.null, h, [])
  else shared_ptr.ofWeak wp h

/-- weak_ptr assignment from a shared_ptr: caches the source observer address
first, then assigns the weak handle. -/
def weak_ptr.assignFromShared (dst : weak_ptr) (src : shared_ptr) (h : Heap) :
    Option (weak_ptr × Heap × List Event) :=
  (WeakCount.assignFromShared dst.m_refcount src.m_refcount h).map fun r =>
    (⟨r.1, src.m_ptr⟩, r.2.1, .readCachePtr src.m_ptr :: r.2.2)

/-- weak_ptr assignment from a weak_ptr: evaluates m_ptr = wp.lock().get()
(lock, read the temporary's address, destroy the temporary), then assigns
the weak handle. -/
def weak_ptr.assignFromWeak (dst src : weak_ptr) (h : Heap) :
    Option (weak_ptr × Heap × List Event) := do
  let r1 ← src.lock h
  let p := r1.1.get
  let r2 ← r1.1.destruct r1.2.1
  let r3 ← WeakCount.assign dst.m_refcount src.m_refcount r2.1
  some (⟨r3.1, p⟩, r3.2.1, r1.2.2 ++ [.readCachePtr p] ++ r2.2 ++ r3.2.2)

/-- Free function dynamic_pointer_cast: castF models the dynamic_cast on the
source observer address, with 0 meaning the runtime type check failed; on
success the aliasing constructor is used, on failure a default-constructed
shared_ptr is returned. -/
def dynamic_pointer_cast (castF : Nat → Nat) (sp : shared_ptr) (h : Heap) :
    Option (shared_ptr × Heap × List Event) :=
  let p := castF sp.get
  if p ≠ 0 then sp.alias p h
  else some (shared_ptr.null, h, [])

/-- Default weak_ptr constructor: null handle and null observer. -/
def weak_ptr.null : weak_ptr := ⟨⟨none⟩, 0⟩

/-- Reading an address successfully means it is inside the heap array. -/
theorem Heap.get_lt_length (h : Heap) (a : Addr) (b : Block)
    (hb : h.get a = some b) : a < h.blocks.length := by
  rcases Nat.lt_or_ge a h.blocks.length with hlt | hge
  · exact hlt
  · unfold Heap.get at hb
    rw [List.getElem?_eq_none hge] at hb
    simp at hb

/-- Reading back the slot just written. -/
theorem Heap.get_set_self (h : Heap) (a : Addr) (x : Option Block)
    (ha : a < h.blocks.length) : (h.set a x).get a = x := by
  unfold Heap.get Heap.set
  rw [List.getElem?_set_self ha]
  rfl

/-- Writing one slot leaves the others unchanged. -/
theorem Heap.get_set_ne (h : Heap) (a b : Addr) (x : Option Block)
    (hne : a ≠ b) : (h.set a x).get b = h.get b := by
  unfold Heap.get Heap.set
  rw [List.getElem?_set_ne hne]

/-- Setting a slot preserves the heap array length. -/
theorem Heap.length_set (h : Heap) (a : Addr) (x : Option Block) :
    (h.set a x).blocks.length = h.blocks.length := by
  unfold Heap.set
  simp

/-- C1: constructing a shared pointer explicitly from a weak pointer whose
block has strong count 0 does NOT yield an empty shared pointer. Trace:
adopt pointee at address 7, create a weak pointer, destroy the owner so the
block expires with counts (0, 1), then run the explicit shared_ptr(weak_ptr)
constructor: the result keeps the control-block reference, get() is the
stale address 7, the boolean test is true, and only use_count() is 0. -/
theorem c1_shared_from_expired_weak_not_empty :
    shared_ptr.ofRaw 7 ⟨[]⟩ = (⟨⟨some 0⟩, 7⟩, ⟨[some ⟨⟨1, 1⟩, true⟩]⟩)
    ∧ weak_ptr.ofShared ⟨⟨some 0⟩, 7⟩ ⟨[some ⟨⟨1, 1⟩, true⟩]⟩ =
        some (⟨⟨some 0⟩, 7⟩, ⟨[some ⟨⟨1, 2⟩, true⟩]⟩, [.incWeak 0])
    ∧ shared_ptr.destruct ⟨⟨some 0⟩, 7⟩ ⟨[some ⟨⟨1, 2⟩, true⟩]⟩ =
        some (⟨[some ⟨⟨0, 1⟩, false⟩]⟩, [.decStrong 0 1, .dispose 0, .decWeak 0 2])
    ∧ shared_ptr.ofWeak ⟨⟨some 0⟩, 7⟩ ⟨[some ⟨⟨0, 1⟩, false⟩]⟩ =
        some (⟨⟨some 0⟩, 7⟩, ⟨[some ⟨⟨0, 1⟩, false⟩]⟩, [.incStrong 0])
    ∧ shared_ptr.get ⟨⟨some 0⟩, 7⟩ = 7
    ∧ ¬ shared_ptr.get ⟨⟨some 0⟩, 7⟩ = 0
    ∧ shared_ptr.toBool ⟨⟨some 0⟩, 7⟩ = true
    ∧ (⟨⟨some 0⟩, 7⟩ : shared_ptr).m_refcount.m_pi = some 0
    ∧ shared_ptr.use_count ⟨⟨some 0⟩, 7⟩ ⟨[some ⟨⟨0, 1⟩, false⟩]⟩ = some 0 := by
  decide

/-- C3: the strong count IS decremented while it is 0. Trace: adopt pointee
at address 7, create a weak pointer, destroy the owner (block expires at
counts (0, 1)), build a shared pointer from the expired weak pointer, then
destroy it: the release applies exchange_and_sub to the strong counter whose
value is 0 (event decStrong 0 0) and the counter wraps to 65535. -/
theorem c3_strong_count_underflows :
    shared_ptr.ofRaw 7 ⟨[]⟩ = (⟨⟨some 0⟩, 7⟩, ⟨[some ⟨⟨1, 1⟩, true⟩]⟩)
    ∧ weak_ptr.ofShared ⟨⟨some 0⟩, 7⟩ ⟨[some ⟨⟨1, 1⟩, true⟩]⟩ =
        some (⟨⟨some 0⟩, 7⟩, ⟨[some ⟨⟨1, 2⟩, true⟩]⟩, [.incWeak 0])
    ∧ shared_ptr.destruct ⟨⟨some 0⟩, 7⟩ ⟨[some ⟨⟨1, 2⟩, true⟩]⟩ =
        some (⟨[some ⟨⟨0, 1⟩, false⟩]⟩, [.decStrong 0 1, .dispose 0, .decWeak 0 2])
    ∧ shared_ptr.ofWeak ⟨⟨some 0⟩, 7⟩ ⟨[some ⟨⟨0, 1⟩, false⟩]⟩ =
        some (⟨⟨some 0⟩, 7⟩, ⟨[some ⟨⟨0, 1⟩, false⟩]⟩, [.incStrong 0])
    ∧ shared_ptr.destruct ⟨⟨some 0⟩, 7⟩ ⟨[some ⟨⟨0, 1⟩, false⟩]⟩ =
        some (⟨[some ⟨⟨65535, 1⟩, false⟩]⟩, [.decStrong 0 0])
    ∧ Event.decStrong 0 0 ∈ [Event.decStrong 0 0]
    ∧ Heap.get ⟨[some ⟨⟨65535, 1⟩, false⟩]⟩ 0 = some ⟨⟨65535, 1⟩, false⟩ := by
  decide

/-- C4: on a default-constructed weak pointer both use_count() and expired()
reach WeakCount::use_count, which dereferences the null control-block
reference with no guard at any layer; the embedding models that null
dereference as none, not as the values 0 and true the claim requires. -/
theorem c4_null_weak_use_count_derefs_null (h : Heap) :
    weak_ptr.use_count weak_ptr.null h = none
    ∧ weak_ptr.expired weak_ptr.null h = none :=
  ⟨rfl, rfl⟩

/-- C6: the full scenario trace. Counts evolve (1,1), (2,1), (2,2), (1,2),
(0,1); the pointee is disposed exactly at the destruction of B; afterwards
the weak pointer reports expired and lock() yields an empty shared pointer;
destroying the weak pointer takes the weak count to 0 and frees the block. -/
theorem c6_scenario_trace :
    shared_ptr.ofRaw 7 ⟨[]⟩ = (⟨⟨some 0⟩, 7⟩, ⟨[some ⟨⟨1, 1⟩, true⟩]⟩)
    ∧ shared_ptr.copy ⟨⟨some 0⟩, 7⟩ ⟨[some ⟨⟨1, 1⟩, true⟩]⟩ =
        some (⟨⟨some 0⟩, 7⟩, ⟨[some ⟨⟨2, 1⟩, true⟩]⟩, [.incStrong 0])
    ∧ weak_ptr.ofShared ⟨⟨some 0⟩, 7⟩ ⟨[some ⟨⟨2, 1⟩, true⟩]⟩ =
        some (⟨⟨some 0⟩, 7⟩, ⟨[some ⟨⟨2, 2⟩, true⟩]⟩, [.incWeak 0])
    ∧ shared_ptr.destruct ⟨⟨some 0⟩, 7⟩ ⟨[some ⟨⟨2, 2⟩, true⟩]⟩ =
        some (⟨[some ⟨⟨1, 2⟩, true⟩]⟩, [.decStrong 0 2])
    ∧ shared_ptr.destruct ⟨⟨some 0⟩, 7⟩ ⟨[some ⟨⟨1, 2⟩, true⟩]⟩ =
        some (⟨[some ⟨⟨0, 1⟩, false⟩]⟩, [.decStrong 0 1, .dispose 0, .decWeak 0 2])
    ∧ weak_ptr.expired ⟨⟨some 0⟩, 7⟩ ⟨[some ⟨⟨0, 1⟩, false⟩]⟩ = some true
    ∧ weak_ptr.lock ⟨⟨some 0⟩, 7⟩ ⟨[some ⟨⟨0, 1⟩, false⟩]⟩ =
        some (shared_ptr.null, ⟨[some ⟨⟨0, 1⟩, false⟩]⟩, [])
    ∧ weak_ptr.destruct ⟨⟨some 0⟩, 7⟩ ⟨[some ⟨⟨0, 1⟩, false⟩]⟩ =
        some (⟨[none]⟩, [.decWeak 0 1, .destroyBlock 0]) := by
  decide

/-- C2 counterexample: on a block with strong count 65535, lock() succeeds
but the strong count after the call is 0, not 65535 + 1. -/
theorem c2_counterexample_wrap_at_65535 :
    weak_ptr.lock ⟨⟨some 0⟩, 7⟩ ⟨[some ⟨⟨65535, 1⟩, true⟩]⟩ =
      some (⟨⟨some 0⟩, 7⟩, ⟨[some ⟨⟨0, 1⟩, true⟩]⟩, [.incStrong 0])
    ∧ ¬ (Heap.get ⟨[some ⟨⟨0, 1⟩, true⟩]⟩ 0 = some ⟨⟨65535 + 1, 1⟩, true⟩) := by
  decide

/-- C9 counterexample: two shared pointers sharing control block 0 through
the aliasing constructor with observer addresses 5 and 9; assigning the
second to the first changes the target's observer address from 5 to 9, so
the observer addresses are not both left unchanged. -/
theorem c9_counterexample_alias_assignment :
    shared_ptr.alias ⟨⟨some 0⟩, 5⟩ 9 ⟨[some ⟨⟨1, 1⟩, true⟩]⟩ =
      some (⟨⟨some 0⟩, 9⟩, ⟨[some ⟨⟨2, 1⟩, true⟩]⟩, [.incStrong 0])
    ∧ shared_ptr.assign ⟨⟨some 0⟩, 5⟩ ⟨⟨some 0⟩, 9⟩ ⟨[some ⟨⟨2, 1⟩, true⟩]⟩ =
      some (⟨⟨some 0⟩, 9⟩, ⟨[some ⟨⟨2, 1⟩, true⟩]⟩, [.readCachePtr 9])
    ∧ ¬ ((⟨⟨some 0⟩, 9⟩ : shared_ptr).m_ptr = (⟨⟨some 0⟩, 5⟩ : shared_ptr).m_ptr) := by
  decide

/-- C8 counterexample: assigning a shared pointer on block 1 to a weak
pointer on block 0 produces the event trace [readCachePtr 9, incWeak 1,
decWeak 0 2]: the source observer address is read and cached before the weak
handle is updated, so no incWeak event precedes the readCachePtr event. -/
theorem c8_counterexample_read_first :
    weak_ptr.assignFromShared ⟨⟨some 0⟩, 5⟩ ⟨⟨some 1⟩, 9⟩
        ⟨[some ⟨⟨1, 2⟩, true⟩, some ⟨⟨1, 1⟩, true⟩]⟩ =
      some (⟨⟨some 1⟩, 9⟩, ⟨[some ⟨⟨1, 1⟩, true⟩, some ⟨⟨1, 2⟩, true⟩]⟩,
        [.readCachePtr 9, .incWeak 1, .decWeak 0 2])
    ∧ ¬ (∃ i j : Nat, i < j
        ∧ [Event.readCachePtr 9, Event.incWeak 1, Event.decWeak 0 2][i]? =
            some (Event.incWeak 1)
        ∧ [Event.readCachePtr 9, Event.incWeak 1, Event.decWeak 0 2][j]? =
            some (Event.readCachePtr 9)) := by
  refine ⟨by decide, ?_⟩
  rintro ⟨i, j, hij, hi, hj⟩
  cases j with
  | zero => omega
  | succ j1 =>
    cases j1 with
    | zero => exact absurd hj (by decide)
    | succ j2 =>
      cases j2 with
      | zero => exact absurd hj (by decide)
      | succ j3 =>
        rw [List.getElem?_eq_none
          (by simp only [List.length_cons, List.length_nil]; omega)] at hj
        exact Option.noConfusion hj

/-- Iterating add_copied_reference n times from a fresh block yields strong
count (1 + n) mod 2^16 with the weak count still 1. -/
theorem add_copied_iterate (n : Nat) :
    ReferenceCount.add_copied_reference^[n] ReferenceCount.init =
      ⟨(1 + n) % U16, 1⟩ := by
  induction n with
  | zero => simp [ReferenceCount.init, U16]
  | succ k ih =>
      rw [Function.iterate_succ_apply', ih]
      have hstep : u16add ((1 + k) % U16) 1 = (1 + (k + 1)) % U16 := by
        unfold u16add U16
        omega
      show (⟨u16add ((1 + k) % U16) 1, 1⟩ : ReferenceCount) = _
      rw [hstep]

/-- C10: the counts are uint16 values, so copying a fresh owner 65534 times
gives strong count 65535 and the 65536th simultaneous strong reference wraps
the strong count to 0; a weak pointer on that block then reports expired and
a shared pointer on it reports use_count 0 despite the live owners. -/
theorem c10_strong_count_wraps_u16 :
    (ReferenceCount.add_copied_reference^[65534] ReferenceCount.init).m_use_count = 65535
    ∧ (ReferenceCount.add_copied_reference^[65535] ReferenceCount.init).m_use_count = 0
    ∧ weak_ptr.expired ⟨⟨some 0⟩, 7⟩
        ⟨[some ⟨ReferenceCount.add_copied_reference^[65535] ReferenceCount.init, true⟩]⟩ =
        some true
    ∧ shared_ptr.use_count ⟨⟨some 0⟩, 7⟩
        ⟨[some ⟨ReferenceCount.add_copied_reference^[65535] ReferenceCount.init, true⟩]⟩ =
        some 0 := by
  have h1 := add_copied_iterate 65534
  have h2 := add_copied_iterate 65535
  have e2 : ((1 + 65535) % U16 : Nat) = 0 := by norm_num [U16]
  have hb : (⟨(1 + 65535) % U16, 1⟩ : ReferenceCount) = ⟨0, 1⟩ := by rw [e2]
  refine ⟨?_, ?_, ?_, ?_⟩
  · rw [h1]; norm_num [U16]
  · rw [h2]; simp [e2]
  · rw [h2, hb]; decide
  · rw [h2, hb]; decide

/-- Shape of lock() on a weak pointer whose block has non-zero strong count:
the result shares the control block, caches the weak pointer's observer
address, and the block's strong count is bumped with uint16 wraparound. -/
theorem weak_ptr.lock_shape_live (wp : weak_ptr) (h : Heap) (a : Addr) (b : Block)
    (hpi : wp.m_refcount.m_pi = some a) (hb : h.get a = some b)
    (hne : b.rc.m_use_count ≠ 0) :
    wp.lock h = some (⟨⟨some a⟩, wp.m_ptr⟩,
      h.set a (some ⟨⟨u16add b.rc.m_use_count 1, b.rc.m_weak_count⟩, b.pointeeAlive⟩),
      [.incStrong a]) := by
  unfold weak_ptr.lock weak_ptr.expired WeakCount.use_count shared_ptr.ofWeak
    SharedCount.ofWeak Heap.addLocked ReferenceCount.add_locked_reference exchange_and_add
  simp [hpi, hb, hne]

/-- Shape of lock() on a weak pointer whose block has strong count 0: an
empty shared pointer, the heap untouched, and no events. -/
theorem weak_ptr.lock_shape_dead (wp : weak_ptr) (h : Heap) (a : Addr) (b : Block)
    (hpi : wp.m_refcount.m_pi = some a) (hb : h.get a = some b)
    (h0 : b.rc.m_use_count = 0) :
    wp.lock h = some (shared_ptr.null, h, []) := by
  unfold weak_ptr.lock weak_ptr.expired WeakCount.use_count
  simp [hpi, hb, h0]

/-- C2 amended: for a weak pointer with a non-null block, lock() on non-zero
strong count returns a shared pointer on the same control block and sets the
strong count to (before + 1) mod 2^16 (so exactly one greater whenever it
was below 65535), leaving the weak count unchanged; lock() on strong count 0
returns an empty shared pointer and changes nothing. -/
theorem c2_lock_increments_mod_u16 (wp : weak_ptr) (h : Heap) (a : Addr) (b : Block)
    (hpi : wp.m_refcount.m_pi = some a) (hb : h.get a = some b) :
    (b.rc.m_use_count ≠ 0 →
      wp.lock h = some (⟨⟨some a⟩, wp.m_ptr⟩,
        h.set a (some ⟨⟨(b.rc.m_use_count + 1) % U16, b.rc.m_weak_count⟩, b.pointeeAlive⟩),
        [.incStrong a]))
    ∧ (b.rc.m_use_count = 0 →
      wp.lock h = some (shared_ptr.null, h, [])) :=
  ⟨fun hne => weak_ptr.lock_shape_live wp h a b hpi hb hne,
   fun h0 => weak_ptr.lock_shape_dead wp h a b hpi hb h0⟩

/-- Witness for C2 at a concrete weak pointer on a block with counts (1, 1). -/
theorem c2_lock_increments_mod_u16_witness :
    (⟨⟨some 0⟩, 7⟩ : weak_ptr).m_refcount.m_pi = some 0
    ∧ Heap.get ⟨[some ⟨⟨1, 1⟩, true⟩]⟩ 0 = some ⟨⟨1, 1⟩, true⟩
    ∧ (((1 : Nat) ≠ 0 →
        weak_ptr.lock ⟨⟨some 0⟩, 7⟩ ⟨[some ⟨⟨1, 1⟩, true⟩]⟩ =
          some (⟨⟨some 0⟩, 7⟩,
            Heap.set ⟨[some ⟨⟨1, 1⟩, true⟩]⟩ 0 (some ⟨⟨(1 + 1) % U16, 1⟩, true⟩),
            [.incStrong 0]))
      ∧ ((1 : Nat) = 0 →
        weak_ptr.lock ⟨⟨some 0⟩, 7⟩ ⟨[some ⟨⟨1, 1⟩, true⟩]⟩ =
          some (shared_ptr.null, ⟨[some ⟨⟨1, 1⟩, true⟩]⟩, []))) :=
  ⟨rfl, rfl,
   c2_lock_increments_mod_u16 ⟨⟨some 0⟩, 7⟩ ⟨[some ⟨⟨1, 1⟩, true⟩]⟩ 0 ⟨⟨1, 1⟩, true⟩ rfl rfl⟩

/-- C5: for any in-range counts, release decrements the strong count by one;
dispose fires exactly when that decrement goes 1 to 0, in which case exactly
one weak decrement also occurs (the weak count is untouched otherwise), and
the block is destroyed exactly when that weak decrement goes 1 to 0. -/
theorem c5_release_strong_semantics (rc : ReferenceCount)
    (hs : rc.m_use_count < U16) (hw : rc.m_weak_count < U16) :
    (1 ≤ rc.m_use_count → rc.release.rc.m_use_count = rc.m_use_count - 1)
    ∧ (rc.release.disposed = true ↔ rc.m_use_count = 1)
    ∧ (rc.m_use_count = 1 → 1 ≤ rc.m_weak_count →
        rc.release.rc.m_weak_count = rc.m_weak_count - 1)
    ∧ (rc.m_use_count ≠ 1 → rc.release.rc.m_weak_count = rc.m_weak_count)
    ∧ (rc.release.destroyed = true ↔ rc.m_use_count = 1 ∧ rc.m_weak_count = 1) := by
  obtain ⟨u, w⟩ := rc
  have hs' : u < 65536 := by simpa [U16] using hs
  have hw' : w < 65536 := by simpa [U16] using hw
  by_cases hu : u = 1 <;> by_cases hw1 : w = 1 <;>
    refine ⟨?_, ?_, ?_, ?_, ?_⟩ <;>
      simp [ReferenceCount.release, exchange_and_sub, u16sub, U16, hu, hw1] <;>
      omega

/-- Witness for C5 at the counts (2, 1). -/
theorem c5_release_strong_semantics_witness :
    (⟨2, 1⟩ : ReferenceCount).m_use_count < U16
    ∧ (⟨2, 1⟩ : ReferenceCount).m_weak_count < U16
    ∧ ((1 ≤ (⟨2, 1⟩ : ReferenceCount).m_use_count →
        (⟨2, 1⟩ : ReferenceCount).release.rc.m_use_count =
          (⟨2, 1⟩ : ReferenceCount).m_use_count - 1)
      ∧ ((⟨2, 1⟩ : ReferenceCount).release.disposed = true ↔
          (⟨2, 1⟩ : ReferenceCount).m_use_count = 1)
      ∧ ((⟨2, 1⟩ : ReferenceCount).m_use_count = 1 →
          1 ≤ (⟨2, 1⟩ : ReferenceCount).m_weak_count →
          (⟨2, 1⟩ : ReferenceCount).release.rc.m_weak_count =
            (⟨2, 1⟩ : ReferenceCount).m_weak_count - 1)
      ∧ ((⟨2, 1⟩ : ReferenceCount).m_use_count ≠ 1 →
          (⟨2, 1⟩ : ReferenceCount).release.rc.m_weak_count =
            (⟨2, 1⟩ : ReferenceCount).m_weak_count)
      ∧ ((⟨2, 1⟩ : ReferenceCount).release.destroyed = true ↔
          (⟨2, 1⟩ : ReferenceCount).m_use_count = 1
          ∧ (⟨2, 1⟩ : ReferenceCount).m_weak_count = 1)) :=
  ⟨by decide, by decide,
   c5_release_strong_semantics ⟨2, 1⟩ (by decide) (by decide)⟩

/-- C7: when the runtime type check fails (the modelled dynamic_cast returns
the null address), dynamic_pointer_cast returns the default-constructed
shared pointer, whose control-block reference is absent, and the heap (hence
the source's strong count) is unchanged with no count events. -/
theorem c7_dynamic_cast_fail_empty (castF : Nat → Nat) (sp : shared_ptr) (h : Heap)
    (hfail : castF sp.get = 0) :
    dynamic_pointer_cast castF sp h = some (shared_ptr.null, h, [])
    ∧ shared_ptr.null.m_refcount.m_pi = none := by
  refine ⟨?_, rfl⟩
  unfold dynamic_pointer_cast
  rw [hfail]
  simp

/-- Witness for C7 with a cast that always fails. -/
theorem c7_dynamic_cast_fail_empty_witness :
    (fun _ => 0 : Nat → Nat) (shared_ptr.get ⟨⟨some 0⟩, 7⟩) = 0
    ∧ (dynamic_pointer_cast (fun _ => 0) ⟨⟨some 0⟩, 7⟩ ⟨[some ⟨⟨1, 1⟩, true⟩]⟩ =
        some (shared_ptr.null, ⟨[some ⟨⟨1, 1⟩, true⟩]⟩, [])
      ∧ shared_ptr.null.m_refcount.m_pi = none) :=
  ⟨rfl, c7_dynamic_cast_fail_empty (fun _ => 0) ⟨⟨some 0⟩, 7⟩ ⟨[some ⟨⟨1, 1⟩, true⟩]⟩ rfl⟩

/-- C9 amended: assigning between shared pointers that reference the same
control block (including self-assignment) performs no count operation,
leaves the heap (strong count and liveness) unchanged and keeps the handle;
the target's observer address becomes the source's, so it is unchanged
precisely when the two cached addresses already coincide. -/
theorem c9_same_block_assign_preserves (dst src : shared_ptr) (h : Heap)
    (hsame : src.m_refcount.m_pi = dst.m_refcount.m_pi) :
    shared_ptr.assign dst src h =
      some (⟨dst.m_refcount, src.m_ptr⟩, h, [.readCachePtr src.m_ptr]) := by
  unfold shared_ptr.assign SharedCount.assign
  rw [if_pos hsame]
  simp

/-- Witness for C9 at an aliased pair on block 0. -/
theorem c9_same_block_assign_preserves_witness :
    (⟨⟨some 0⟩, 9⟩ : shared_ptr).m_refcount.m_pi =
      (⟨⟨some 0⟩, 5⟩ : shared_ptr).m_refcount.m_pi
    ∧ shared_ptr.assign ⟨⟨some 0⟩, 5⟩ ⟨⟨some 0⟩, 9⟩ ⟨[some ⟨⟨2, 1⟩, true⟩]⟩ =
        some (⟨⟨some 0⟩, 9⟩, ⟨[some ⟨⟨2, 1⟩, true⟩]⟩, [.readCachePtr 9]) :=
  ⟨rfl, c9_same_block_assign_preserves ⟨⟨some 0⟩, 5⟩ ⟨⟨some 0⟩, 9⟩
    ⟨[some ⟨⟨2, 1⟩, true⟩]⟩ rfl⟩

/-- Releasing a weak reference on a present block always starts its event
list with the decWeak event carrying the old weak count. -/
theorem Heap.releaseWeak_shape (h : Heap) (a : Addr) (b : Block)
    (hb : h.get a = some b) :
    ∃ hp rest, h.releaseWeak a = some (hp, .decWeak a b.rc.m_weak_count :: rest) := by
  unfold Heap.releaseWeak
  rw [hb]
  simp only [Option.map_some']
  split
  · exact ⟨_, _, rfl⟩
  · exact ⟨_, _, rfl⟩

/-- Releasing a strong reference on a block whose strong count is not 1 only
decrements the strong count and emits a single decStrong event. -/
theorem Heap.releaseStrong_nodispose (h : Heap) (a : Addr) (b : Block)
    (hb : h.get a = some b) (hne : b.rc.m_use_count ≠ 1) :
    h.releaseStrong a =
      some (h.set a (some ⟨⟨u16sub b.rc.m_use_count 1, b.rc.m_weak_count⟩, b.pointeeAlive⟩),
        [.decStrong a b.rc.m_use_count]) := by
  unfold Heap.releaseStrong
  rw [hb]
  simp [ReferenceCount.release, exchange_and_sub, hne]

/-- Shape of WeakCount assignment when both handles are non-null and both
blocks are present: the new block's incWeak event strictly precedes the old
block's decWeak event. -/
theorem WeakCount.assign_shape (dst src : WeakCount) (h : Heap) (a b : Addr)
    (ba bb : Block) (hda : dst.m_pi = some a) (hsb : src.m_pi = some b)
    (hba : h.get a = some ba) (hbb : h.get b = some bb) :
    ∃ hp w rest, WeakCount.assign dst src h =
      some (⟨some b⟩, hp, .incWeak b :: .decWeak a w :: rest) := by
  unfold WeakCount.assign Heap.addWeak
  simp only [hsb, hda, hbb, Option.map_some', Option.bind_eq_bind, Option.some_bind]
  by_cases hab : a = b
  · subst hab
    have hlen : a < h.blocks.length := Heap.get_lt_length h a bb hbb
    obtain ⟨hp, rest, hr⟩ := Heap.releaseWeak_shape
      (h.set a (some { bb with rc := bb.rc.add_weak_reference })) a
      { bb with rc := bb.rc.add_weak_reference }
      (Heap.get_set_self h a _ hlen)
    rw [hr]
    exact ⟨hp, _, rest, rfl⟩
  · obtain ⟨hp, rest, hr⟩ := Heap.releaseWeak_shape
      (h.set b (some { bb with rc := bb.rc.add_weak_reference })) a ba
      (by rw [Heap.get_set_ne h b a _ fun hba2 => hab hba2.symm]; exact hba)
    rw [hr]
    exact ⟨hp, _, rest, rfl⟩

/-- WeakCount assignment from a SharedCount behaves exactly like assignment
from a WeakCount holding the same block reference. -/
theorem WeakCount.assignFromShared_eq (dst : WeakCount) (src : SharedCount) (h : Heap) :
    WeakCount.assignFromShared dst src h = WeakCount.assign dst ⟨src.m_pi⟩ h := rfl

/-- C8 amended: in weak-pointer assignment from a shared or a weak source,
the source's observer address is read and cached BEFORE the weak handle is
updated; within the handle update the new block's weak count is incremented
before the old block's weak count is released. The readCachePtr event
precedes the incWeak and decWeak events, and every event before it is not a
weak-count mutation. -/
theorem c8_cache_read_precedes_weak_update
    (dst : weak_ptr) (srcS : shared_ptr) (srcW : weak_ptr) (h : Heap)
    (a bs bw : Addr) (ba bbs bbw : Block)
    (hda : dst.m_refcount.m_pi = some a) (hba : h.get a = some ba)
    (hss : srcS.m_refcount.m_pi = some bs) (hbs : h.get bs = some bbs)
    (hws : srcW.m_refcount.m_pi = some bw) (hbw : h.get bw = some bbw)
    (hbound : bbw.rc.m_use_count < U16) :
    (∃ hp w rest, weak_ptr.assignFromShared dst srcS h =
        some (⟨⟨some bs⟩, srcS.m_ptr⟩, hp,
          .readCachePtr srcS.m_ptr :: .incWeak bs :: .decWeak a w :: rest))
    ∧ (∃ pre mid p hp w rest,
        weak_ptr.assignFromWeak dst srcW h =
          some (⟨⟨some bw⟩, p⟩, hp,
            pre ++ .readCachePtr p :: (mid ++ .incWeak bw :: .decWeak a w :: rest))
        ∧ (∀ e ∈ pre, e.isWeakMutation = false)
        ∧ (∀ e ∈ mid, e.isWeakMutation = false)) := by
  constructor
  · obtain ⟨hp, w, rest, hr⟩ :=
      WeakCount.assign_shape dst.m_refcount ⟨srcS.m_refcount.m_pi⟩ h a bs ba bbs
        hda hss hba hbs
    refine ⟨hp, w, rest, ?_⟩
    unfold weak_ptr.assignFromShared
    rw [WeakCount.assignFromShared_eq, hr]
    rfl
  · by_cases hs0 : bbw.rc.m_use_count = 0
    · have hlock := weak_ptr.lock_shape_dead srcW h bw bbw hws hbw hs0
      obtain ⟨hp, w, rest, hassign⟩ :=
        WeakCount.assign_shape dst.m_refcount srcW.m_refcount h a bw ba bbw
          hda hws hba hbw
      refine ⟨[], [], 0, hp, w, rest, ?_, ?_, ?_⟩
      · unfold weak_ptr.assignFromWeak
        rw [hlock]
        simp only [Option.bind_eq_bind, Option.some_bind]
        rw [show shared_ptr.destruct shared_ptr.null h = some (h, []) from rfl]
        simp only [Option.some_bind]
        rw [hassign]
        rfl
      · intro e he
        exact absurd he (List.not_mem_nil e)
      · intro e he
        exact absurd he (List.not_mem_nil e)
    · obtain ⟨⟨u, uw⟩, ualive⟩ := bbw
      have hu0 : u ≠ 0 := hs0
      have huB : u < 65536 := by simpa [U16] using hbound
      have hlock := weak_ptr.lock_shape_live srcW h bw ⟨⟨u, uw⟩, ualive⟩ hws hbw hu0
      have hlen : bw < h.blocks.length := Heap.get_lt_length h bw _ hbw
      have hget1 : (h.set bw (some ⟨⟨u16add u 1, uw⟩, ualive⟩)).get bw =
          some ⟨⟨u16add u 1, uw⟩, ualive⟩ :=
        Heap.get_set_self h bw _ hlen
      have hne1 : u16add u 1 ≠ 1 := by
        unfold u16add U16
        omega
      have hdes := Heap.releaseStrong_nodispose
        (h.set bw (some ⟨⟨u16add u 1, uw⟩, ualive⟩)) bw ⟨⟨u16add u 1, uw⟩, ualive⟩
        hget1 hne1
      have hlen2 : bw < (h.set bw (some ⟨⟨u16add u 1, uw⟩, ualive⟩)).blocks.length := by
        rw [Heap.length_set]
        exact hlen
      by_cases hab : a = bw
      · subst hab
        have hget2 : ((h.set a (some ⟨⟨u16add u 1, uw⟩, ualive⟩)).set a
              (some ⟨⟨u16sub (u16add u 1) 1, uw⟩, ualive⟩)).get a =
            some ⟨⟨u16sub (u16add u 1) 1, uw⟩, ualive⟩ :=
          Heap.get_set_self _ a _ hlen2
        obtain ⟨hp, w, rest, hassign⟩ :=
          WeakCount.assign_shape dst.m_refcount srcW.m_refcount
            ((h.set a (some ⟨⟨u16add u 1, uw⟩, ualive⟩)).set a
              (some ⟨⟨u16sub (u16add u 1) 1, uw⟩, ualive⟩))
            a a ⟨⟨u16sub (u16add u 1) 1, uw⟩, ualive⟩
            ⟨⟨u16sub (u16add u 1) 1, uw⟩, ualive⟩ hda hws hget2 hget2
        refine ⟨[.incStrong a], [.decStrong a (u16add u 1)], srcW.m_ptr,
          hp, w, rest, ?_, ?_, ?_⟩
        · unfold weak_ptr.assignFromWeak
          rw [hlock]
          simp only [Option.bind_eq_bind, Option.some_bind]
          simp only [shared_ptr.destruct, SharedCount.destruct]
          rw [hdes]
          simp only [Option.some_bind]
          rw [hassign]
          simp only [Option.some_bind, shared_ptr.get, List.cons_append,
            List.append_assoc, List.nil_append, List.singleton_append]
        · intro e he
          rw [List.mem_singleton] at he
          subst he
          rfl
        · intro e he
          rw [List.mem_singleton] at he
          subst he
          rfl
      · have hget2a : ((h.set bw (some ⟨⟨u16add u 1, uw⟩, ualive⟩)).set bw
              (some ⟨⟨u16sub (u16add u 1) 1, uw⟩, ualive⟩)).get a = some ba := by
          rw [Heap.get_set_ne _ bw a _ fun hE => hab hE.symm,
            Heap.get_set_ne h bw a _ fun hE => hab hE.symm]
          exact hba
        have hget2b : ((h.set bw (some ⟨⟨u16add u 1, uw⟩, ualive⟩)).set bw
              (some ⟨⟨u16sub (u16add u 1) 1, uw⟩, ualive⟩)).get bw =
            some ⟨⟨u16sub (u16add u 1) 1, uw⟩, ualive⟩ :=
          Heap.get_set_self _ bw _ hlen2
        obtain ⟨hp, w, rest, hassign⟩ :=
          WeakCount.assign_shape dst.m_refcount srcW.m_refcount
            ((h.set bw (some ⟨⟨u16add u 1, uw⟩, ualive⟩)).set bw
              (some ⟨⟨u16sub (u16add u 1) 1, uw⟩, ualive⟩))
            a bw ba ⟨⟨u16sub (u16add u 1) 1, uw⟩, ualive⟩ hda hws hget2a hget2b
        refine ⟨[.incStrong bw], [.decStrong bw (u16add u 1)], srcW.m_ptr,
          hp, w, rest, ?_, ?_, ?_⟩
        · unfold weak_ptr.assignFromWeak
          rw [hlock]
          simp only [Option.bind_eq_bind, Option.some_bind]
          simp only [shared_ptr.destruct, SharedCount.destruct]
          rw [hdes]
          simp only [Option.some_bind]
          rw [hassign]
          simp only [Option.some_bind, shared_ptr.get, List.cons_append,
            List.append_assoc, List.nil_append, List.singleton_append]
        · intro e he
          rw [List.mem_singleton] at he
          subst he
          rfl
        · intro e he
          rw [List.mem_singleton] at he
          subst he
          rfl

/-- Witness for C8 at a weak pointer on block 0 assigned from shared and
weak sources on block 1. -/
theorem c8_cache_read_precedes_weak_update_witness :
    (⟨⟨some 0⟩, 5⟩ : weak_ptr).m_refcount.m_pi = some 0
    ∧ Heap.get ⟨[some ⟨⟨1, 2⟩, true⟩, some ⟨⟨1, 1⟩, true⟩]⟩ 0 = some ⟨⟨1, 2⟩, true⟩
    ∧ (⟨⟨some 1⟩, 9⟩ : shared_ptr).m_refcount.m_pi = some 1
    ∧ Heap.get ⟨[some ⟨⟨1, 2⟩, true⟩, some ⟨⟨1, 1⟩, true⟩]⟩ 1 = some ⟨⟨1, 1⟩, true⟩
    ∧ (⟨⟨some 1⟩, 9⟩ : weak_ptr).m_refcount.m_pi = some 1
    ∧ (⟨⟨1, 1⟩, true⟩ : Block).rc.m_use_count < U16
    ∧ ((∃ hp w rest, weak_ptr.assignFromShared ⟨⟨some 0⟩, 5⟩ ⟨⟨some 1⟩, 9⟩
          ⟨[some ⟨⟨1, 2⟩, true⟩, some ⟨⟨1, 1⟩, true⟩]⟩ =
            some (⟨⟨some 1⟩, 9⟩, hp,
              .readCachePtr 9 :: .incWeak 1 :: .decWeak 0 w :: rest))
      ∧ (∃ pre mid p hp w rest,
          weak_ptr.assignFromWeak ⟨⟨some 0⟩, 5⟩ ⟨⟨some 1⟩, 9⟩
            ⟨[some ⟨⟨1, 2⟩, true⟩, some ⟨⟨1, 1⟩, true⟩]⟩ =
              some (⟨⟨some 1⟩, p⟩, hp,
                pre ++ .readCachePtr p :: (mid ++ .incWeak 1 :: .decWeak 0 w :: rest))
          ∧ (∀ e ∈ pre, e.isWeakMutation = false)
          ∧ (∀ e ∈ mid, e.isWeakMutation = false))) :=
  ⟨rfl, rfl, rfl, rfl, rfl, by decide,
   c8_cache_read_precedes_weak_update ⟨⟨some 0⟩, 5⟩ ⟨⟨some 1⟩, 9⟩ ⟨⟨some 1⟩, 9⟩
     ⟨[some ⟨⟨1, 2⟩, true⟩, some ⟨⟨1, 1⟩, true⟩]⟩ 0 1 1
     ⟨⟨1, 2⟩, true⟩ ⟨⟨1, 1⟩, true⟩ ⟨⟨1, 1⟩, true⟩ rfl rfl rfl rfl rfl rfl (by decide)⟩

end Wlp
